import Mathlib

/-!
Verification of the keratoconus-severity ML pipeline
(`src/data_generator.py`, `src/preprocessing.py`, `src/feature_selection.py`,
`src/train.py`, `src/evaluate.py`, `run_pipeline.py`, `app/streamlit_app.py`)
against its natural-language specification.

The embedding is shallow: numpy's seeded standard-normal stream is modelled
as a function `Nat → ℚ` determined by the seed, a pandas `DataFrame` as a
list of column names plus a list of rows of rationals, the filesystem and
model store as finite maps, and an sklearn model as an opaque pair of
(possibly failing) `predict` / `predict_proba` functions.
-/

/-- One labelled sample produced by `PentacamDataGenerator._generate_stage_data`:
a severity stage (int) and the three measurements Rm_B, Rm_F, Pachy_Min. -/
structure Row where
  severity : Nat
  rm_b : ℚ
  rm_f : ℚ
  pachy_min : ℚ
deriving DecidableEq

/-- State of numpy's global random generator: the seeded stream of standard
normal draws and the current position in it.  `np.random.seed(s)` resets the
position to zero on the stream determined by `s`; each call to
`np.random.normal(mu, sigma, n)` consumes the next `n` draws. -/
structure RNG where
  stream : Nat → ℚ
  pos : Nat

/-- Model of `np.random.seed(random_state)`: the state becomes position 0 of
the stream determined by the seed, whatever the previous state was. -/
def npSeed (streamOf : Int → Nat → ℚ) (random_state : Int) : RNG :=
  { stream := streamOf random_state, pos := 0 }

/-- Model of `np.random.normal(mu, sigma, n)`: returns `n` values
`mu + sigma * z` for the next `n` standard-normal draws `z` of the stream,
advancing the position by `n`. -/
def npNormal (mu sigma : ℚ) (n : Nat) (g : RNG) : List ℚ × RNG :=
  ((List.range n).map (fun i => mu + sigma * g.stream (g.pos + i)),
   { g with pos := g.pos + n })

/-- Model of `np.full(n, stage)`. -/
def npFull (n stage : Nat) : List Nat :=
  List.replicate n stage

/-- Severity-dependent mean of Pachy_Min: `520 - stage * 30` (thins with
severity). -/
def pachy_min_mean (stage : Nat) : ℚ := 520 - stage * 30

/-- Severity-dependent mean of Rm_B: `6.5 - stage * 0.4` (posterior curvature
steepens). -/
def rm_b_mean (stage : Nat) : ℚ := 6.5 - stage * 0.4

/-- Severity-dependent mean of Rm_F: `7.8 - stage * 0.35` (anterior curvature
steepens). -/
def rm_f_mean (stage : Nat) : ℚ := 7.8 - stage * 0.35

/-- Standard deviation of the Rm_B draws in `_generate_stage_data`. -/
def rm_b_std : ℚ := 0.25

/-- Standard deviation of the Rm_F draws in `_generate_stage_data`. -/
def rm_f_std : ℚ := 0.3

/-- Standard deviation of the Pachy_Min draws in `_generate_stage_data`. -/
def pachy_min_std : ℚ := 20

/-- Assembles the four columns of `_generate_stage_data`'s dict into rows, as
`pd.DataFrame(data)` pairs the columns index by index. -/
def zipRows : List Nat → List ℚ → List ℚ → List ℚ → List Row
  | s :: ss, b :: bs, f :: fs, p :: ps => ⟨s, b, f, p⟩ :: zipRows ss bs fs ps
  | _, _, _, _ => []

/-- Model of `PentacamDataGenerator._generate_stage_data(stage)` with
`n = self.n_per_class`: the Severity column is `np.full(n, stage)` and the
three feature columns are normal draws with the stage-dependent means,
consumed from the global RNG in the dict's order Rm_B, Rm_F, Pachy_Min. -/
def generate_stage_data (g : RNG) (n stage : Nat) : List Row × RNG :=
  let sev := npFull n stage
  let b := npNormal (rm_b_mean stage) rm_b_std n g
  let f := npNormal (rm_f_mean stage) rm_f_std n b.2
  let p := npNormal (pachy_min_mean stage) pachy_min_std n f.2
  (zipRows sev b.1 f.1 p.1, p.2)

/-- The generator's `self.severity_stages = [0, 1, 2, 3, 4]`. -/
def severity_stages : List Nat := [0, 1, 2, 3, 4]

/-- The stage loop of `generate_dataset`: generates each stage's block in
list order and concatenates them (`pd.concat(stage_data, ignore_index=True)`),
threading the global RNG state. -/
def generateStages (n : Nat) : List Nat → RNG → List Row × RNG
  | [], g => ([], g)
  | s :: rest, g =>
    let p := generate_stage_data g n s
    let q := generateStages n rest p.2
    (p.1 ++ q.1, q.2)

/-- Reorders a list by a list of indices; out-of-range indices contribute
nothing. -/
def applyPerm (perm : List Nat) (l : List α) : List α :=
  perm.filterMap (fun i => l[i]?)

/-- Model of `df.sample(frac=1, random_state=rs).reset_index(drop=True)`:
pandas reorders the rows by the permutation of `0..len-1` that its own
`RandomState(rs)` produces; `permOf` is that seeded permutation family. -/
def pandasSampleFrac1 (permOf : Int → Nat → List Nat) (rs : Int) (l : List Row) : List Row :=
  applyPerm (permOf rs l.length) l

/-- Model of `PentacamDataGenerator.generate_dataset`: generate the five
stage blocks, concatenate, then shuffle with `random_state = rs`. -/
def generate_dataset (permOf : Int → Nat → List Nat) (rs : Int) (n : Nat) (g : RNG) :
    List Row × RNG :=
  let p := generateStages n severity_stages g
  (pandasSampleFrac1 permOf rs p.1, p.2)

/-- Model of `PentacamDataGenerator.__init__(n_per_class, random_state)`: the
constructor calls `np.random.seed(random_state)`, replacing whatever global
RNG state `_prev` the process had. -/
def pentacamInit (streamOf : Int → Nat → ℚ) (random_state : Int) (_prev : RNG) : RNG :=
  npSeed streamOf random_state

/-- A run that constructs a fresh `PentacamDataGenerator(n, rs)` and calls
`generate_dataset`, starting from global RNG state `g`. -/
def freshGenerateDataset (streamOf : Int → Nat → ℚ) (permOf : Int → Nat → List Nat)
    (rs : Int) (n : Nat) (g : RNG) : List Row × RNG :=
  generate_dataset permOf rs n (pentacamInit streamOf rs g)

/-- A pandas DataFrame over rational cells: column names plus rows. -/
structure DataFrame where
  columns : List String
  rows : List (List ℚ)
deriving DecidableEq

/-- Index of a column name in a header list. -/
def colIndex (name : String) : List String → Option Nat
  | [] => none
  | c :: rest => if c = name then some 0 else (colIndex name rest).map (· + 1)

/-- Column lookup `df[name]`: the index of the name in the header, then that
cell of each row (`none` when the column is absent, pandas' `KeyError`). -/
def DataFrame.getCol (df : DataFrame) (name : String) : Option (List ℚ) :=
  (colIndex name df.columns).map
    (fun i => df.rows.map (fun r => r.getD i 0))

/-- The row of CSV cells for one generated sample, in the generator dict's
column order Severity, Rm_B, Rm_F, Pachy_Min. -/
def Row.toCells (r : Row) : List ℚ :=
  [(r.severity : ℚ), r.rm_b, r.rm_f, r.pachy_min]

/-- The DataFrame written by `generate_dataset` via `df_complete.to_csv`. -/
def datasetToDF (rows : List Row) : DataFrame :=
  { columns := ["Severity", "Rm_B", "Rm_F", "Pachy_Min"],
    rows := rows.map Row.toCells }

/-- An sklearn model artifact, opaque as the spec describes it: a `predict`
and a `predict_proba` call per input row, either of which may raise. -/
structure Model where
  predict : List ℚ → Except Unit ℚ
  predictProba : List ℚ → Except Unit (List ℚ)

/-- The persisted state the pipeline steps communicate through: the CSV files
and the joblib model files, each a partial map from path to content. -/
structure Store where
  files : String → Option DataFrame
  models : String → Option Model

/-- Writes a CSV file (`df.to_csv(path)`). -/
def Store.setFile (st : Store) (path : String) (df : DataFrame) : Store :=
  { st with files := fun p => if p = path then some df else st.files p }

/-- Writes a model file (`joblib.dump(model, path)`). -/
def Store.setModel (st : Store) (path : String) (m : Model) : Store :=
  { st with models := fun p => if p = path then some m else st.models p }

/-- The kinds of exception the pipeline and app code can signal:
a missing file (`FileNotFoundError` from `pd.read_csv` / `joblib.load`, or
the app's explicit model-file check), a missing DataFrame column
(`KeyError`), `evaluate`'s `ValueError("No model loaded")`, and a raising
`predict` / `predict_proba` call. -/
inductive AppError
  | fileNotFound
  | columnMissing
  | noModelLoaded
  | predictionRaised
deriving DecidableEq

/-- Path of the raw generated CSV. -/
def rawPath : String := "data/raw/synthetic_pentacam_79_features.csv"

/-- Path of the preprocessed CSV. -/
def processedPath : String := "data/processed/preprocessed_data.csv"

/-- Path of the feature-selected CSV. -/
def selectedPath : String := "data/processed/selected_features_data.csv"

/-- Path of the persisted Random Forest model. -/
def modelPath : String := "models/rf_kc_severity.pkl"

/-- Path of the evaluation metrics CSV. -/
def metricsPath : String := "models/evaluation_metrics.csv"

/-- Model of `data_generator.main()` (generalised over `n_per_class` and
`random_state`; `main` itself passes 130 and 42): construct a fresh
generator, generate the dataset, and write it to the raw CSV path. -/
def dataGeneratorRun (streamOf : Int → Nat → ℚ) (permOf : Int → Nat → List Nat)
    (rs : Int) (n : Nat) (g : RNG) (st : Store) : Store × RNG :=
  let d := freshGenerateDataset streamOf permOf rs n g
  (st.setFile rawPath (datasetToDF d.1), d.2)

/-- Model of `data_generator.main()` with its literal arguments
`n_per_class=130, random_state=42`. -/
def dataGeneratorMain (streamOf : Int → Nat → ℚ) (permOf : Int → Nat → List Nat)
    (g : RNG) (st : Store) : Store × RNG :=
  dataGeneratorRun streamOf permOf 42 130 g st

/-- Model of `preprocessing.main()`: read the raw CSV (raises if the file is
missing), print the ranges of the three feature columns (raises `KeyError`
if one is absent), then write the same DataFrame unchanged to the processed
path. -/
def preprocessingMain (st : Store) : Except AppError Store :=
  match st.files rawPath with
  | none => .error .fileNotFound
  | some df =>
    match df.getCol "Rm_B", df.getCol "Rm_F", df.getCol "Pachy_Min" with
    | some _, some _, some _ => .ok (st.setFile processedPath df)
    | _, _, _ => .error .columnMissing

/-- The `selected_features` list of `feature_selection.main()`. -/
def selected_features : List String := ["Rm_B", "Rm_F", "Pachy_Min"]

/-- Model of `feature_selection.main()`: read the preprocessed CSV (raises if
missing), print `selected_features`, and write the DataFrame unchanged to
the selected path.  The pairplot that follows is inside `try/except`, so it
never signals an error. -/
def featureSelectionMain (st : Store) : Except AppError Store :=
  match st.files processedPath with
  | none => .error .fileNotFound
  | some df => .ok (st.setFile selectedPath df)

/-- Zips the Rm_B, Rm_F, Pachy_Min columns back into the feature rows of
`df[['Rm_B', 'Rm_F', 'Pachy_Min']]`. -/
def zipFeatureRows : List ℚ → List ℚ → List ℚ → List (List ℚ)
  | b :: bs, f :: fs, p :: ps => [b, f, p] :: zipFeatureRows bs fs ps
  | _, _, _ => []

/-- Applies `model.predict` to each row of a feature matrix, as
`model.predict(X)` does; the call raises as soon as one row's prediction
raises. -/
def predictBatch (m : Model) : List (List ℚ) → Except Unit (List ℚ)
  | [] => .ok []
  | x :: xs =>
    match m.predict x with
    | .error e => .error e
    | .ok v =>
      match predictBatch m xs with
      | .error e => .error e
      | .ok vs => .ok (v :: vs)

/-- Model of `train.main()`: read the selected CSV, take the three feature
columns and the Severity column (raising `KeyError` when absent), fit the
Random Forest (`fit` is the opaque sklearn training function), compute the
training predictions `rf.predict(X)` (which propagates a raising predict),
and persist the model.  Cross-validation and the `cv_results.csv` metrics
artifact are score computations with no effect on later steps and are not
modelled. -/
def trainMain (fit : List (List ℚ) → List ℚ → Model) (st : Store) : Except AppError Store :=
  match st.files selectedPath with
  | none => .error .fileNotFound
  | some df =>
    match df.getCol "Rm_B", df.getCol "Rm_F", df.getCol "Pachy_Min", df.getCol "Severity" with
    | some b, some f, some p, some y =>
      let X := zipFeatureRows b f p
      let m := fit X y
      match predictBatch m X with
      | .error _ => .error .predictionRaised
      | .ok _ => .ok (st.setModel modelPath m)
    | _, _, _, _ => .error .columnMissing

/-- Model of `sklearn.metrics.accuracy_score(y, y_pred)`. -/
def accuracy_score (y yPred : List ℚ) : ℚ :=
  if y.length = 0 then 0
  else ((y.zip yPred).countP (fun q => q.1 == q.2) : ℚ) / y.length

/-- Per-class precision with `zero_division=0`. -/
def classPrecision (y yPred : List ℚ) (c : Nat) : ℚ :=
  let tp := (y.zip yPred).countP (fun q => q.1 == (c : ℚ) && q.2 == (c : ℚ))
  let predC := yPred.countP (fun v => v == (c : ℚ))
  if predC = 0 then 0 else (tp : ℚ) / predC

/-- Per-class recall with `zero_division=0`. -/
def classRecall (y yPred : List ℚ) (c : Nat) : ℚ :=
  let tp := (y.zip yPred).countP (fun q => q.1 == (c : ℚ) && q.2 == (c : ℚ))
  let actC := y.countP (fun v => v == (c : ℚ))
  if actC = 0 then 0 else (tp : ℚ) / actC

/-- Per-class F-beta score with `zero_division=0`. -/
def classFBeta (beta : ℚ) (y yPred : List ℚ) (c : Nat) : ℚ :=
  let p := classPrecision y yPred c
  let r := classRecall y yPred c
  if beta ^ 2 * p + r = 0 then 0 else (1 + beta ^ 2) * p * r / (beta ^ 2 * p + r)

/-- Per-class support: the number of true samples of the class. -/
def classSupport (y : List ℚ) (c : Nat) : Nat :=
  y.countP (fun v => v == (c : ℚ))

/-- Weighted average of a per-class metric over stages 0–4, the
`average='weighted'` reduction of sklearn. -/
def weightedAvg (y : List ℚ) (metric : Nat → ℚ) : ℚ :=
  if y.length = 0 then 0
  else (((List.range 5).map (fun c => (classSupport y c : ℚ) * metric c)).sum) / y.length

/-- Model of `sklearn.metrics.confusion_matrix` over the five stages as the
evaluator plots it: entry `(i, j)` counts samples with true stage `i`
predicted as stage `j`. -/
def confusionMatrix (y yPred : List ℚ) : List (List Nat) :=
  (List.range 5).map (fun i =>
    (List.range 5).map (fun j =>
      (y.zip yPred).countP (fun q => q.1 == (i : ℚ) && q.2 == (j : ℚ))))

/-- Model of `sklearn.metrics.classification_report` over stages 0–4: per
class, its precision, recall, F1 and support. -/
def classificationReport (y yPred : List ℚ) : List (ℚ × ℚ × ℚ × Nat) :=
  (List.range 5).map (fun c =>
    (classPrecision y yPred c, classRecall y yPred c,
     classFBeta 1 y yPred c, classSupport y c))

/-- The metrics dict of `ModelEvaluator.evaluate`, in percent:
accuracy, weighted precision, recall, F1 and F2. -/
def evalMetrics (y yPred : List ℚ) : List ℚ :=
  [accuracy_score y yPred * 100,
   weightedAvg y (classPrecision y yPred) * 100,
   weightedAvg y (classRecall y yPred) * 100,
   weightedAvg y (classFBeta 1 y yPred) * 100,
   weightedAvg y (classFBeta 2 y yPred) * 100]

/-- Model of `ModelEvaluator.evaluate(X, y)`: raises `ValueError` when no
model is loaded, otherwise predicts every row of `X` and computes the
metrics. -/
def ModelEvaluator.evaluate (model : Option Model) (X : List (List ℚ)) (y : List ℚ) :
    Except AppError (List ℚ × List ℚ) :=
  match model with
  | none => .error .noModelLoaded
  | some m =>
    match predictBatch m X with
    | .error _ => .error .predictionRaised
    | .ok yPred => .ok (evalMetrics y yPred, yPred)

/-- The five fixed clinical test cases of `evaluate.main()`, as the feature
rows `[Rm_B, Rm_F, Pachy_Min]` built for each. -/
def clinical_test_cases : List (List ℚ) :=
  [[6.4, 7.7, 518], [6.0, 7.3, 481], [5.7, 7.0, 448], [5.1, 6.7, 391], [4.6, 6.0, 395]]

/-- The expected stages of the five clinical test cases. -/
def clinical_expected : List Nat := [0, 1, 2, 3, 4]

/-- The clinical-case loop of `evaluate.main()`: for each case both
`model.predict` and `model.predict_proba` are called; either raising
propagates out of `main`. -/
def runTestCases (m : Model) : List (List ℚ) → Except Unit (List ℚ)
  | [] => .ok []
  | c :: cs =>
    match m.predict c with
    | .error e => .error e
    | .ok v =>
      match m.predictProba c with
      | .error e => .error e
      | .ok _ =>
        match runTestCases m cs with
        | .error e => .error e
        | .ok vs => .ok (v :: vs)

/-- Everything `evaluate.main()` emits: the true labels, the predictions over
the full dataset, the metrics, the confusion matrix, the classification
report and the predictions at the five clinical test cases. -/
structure EvalOutput where
  y : List ℚ
  yPred : List ℚ
  metrics : List ℚ
  confusion : List (List Nat)
  report : List (ℚ × ℚ × ℚ × Nat)
  testPreds : List ℚ
deriving DecidableEq

/-- Model of `evaluate.main()`: reload the raw CSV, take the same three
feature columns and `Severity` as training, construct a `ModelEvaluator`
with the persisted model path (loading raises when the file is missing),
evaluate on the full dataset, plot the confusion matrix, print the
classification report, write the metrics CSV, and run the five clinical
test cases. -/
def evaluateMain (st : Store) : Except AppError (Store × EvalOutput) :=
  match st.files rawPath with
  | none => .error .fileNotFound
  | some df =>
    match df.getCol "Rm_B", df.getCol "Rm_F", df.getCol "Pachy_Min", df.getCol "Severity" with
    | some b, some f, some p, some y =>
      let X := zipFeatureRows b f p
      match st.models modelPath with
      | none => .error .fileNotFound
      | some m =>
        match ModelEvaluator.evaluate (some m) X y with
        | .error e => .error e
        | .ok mv =>
          match runTestCases m clinical_test_cases with
          | .error _ => .error .predictionRaised
          | .ok tps =>
            let st' := st.setFile metricsPath { columns := ["accuracy", "precision", "recall", "f1", "f2"], rows := [mv.1] }
            .ok (st', { y := y, yPred := mv.2, metrics := mv.1,
                        confusion := confusionMatrix y mv.2,
                        report := classificationReport y mv.2,
                        testPreds := tps })
    | _, _, _, _ => .error .columnMissing

/-- Chains the five step mains over the store, as a full `run_pipeline.py`
execution does (each step reads what earlier steps wrote); the first error
aborts the chain. -/
def fullPipelineRun (streamOf : Int → Nat → ℚ) (permOf : Int → Nat → List Nat)
    (fit : List (List ℚ) → List ℚ → Model) (g : RNG) (st : Store) :
    Except AppError (Store × EvalOutput) :=
  let p := dataGeneratorMain streamOf permOf g st
  match preprocessingMain p.1 with
  | .error e => .error e
  | .ok st2 =>
    match featureSelectionMain st2 with
    | .error e => .error e
    | .ok st3 =>
      match trainMain fit st3 with
      | .error e => .error e
      | .ok st4 => evaluateMain st4

/-- Model of a `st.slider(label, min_value, max_value, value, step)` widget:
whatever position `k` the user drags it to, the returned value is on the
step grid starting at `min_value` and never exceeds `max_value`.  The
`_default` argument is the initial position, one of the reachable values. -/
def stSlider (lo hi _default step : ℚ) (k : Nat) : ℚ :=
  min (lo + k * step) hi

/-- Model of the app's `load_model()`: return the model at the persisted
path if the file exists, otherwise show an error and `st.stop()` — the
file-not-found case. -/
def appLoadModel (st : Store) : Except AppError Model :=
  match st.models modelPath with
  | some m => .ok m
  | none => .error .fileNotFound

/-- The `input_data` row the app builds from the three slider values, with
the slider bounds of the source: Rm_B in `[4.0, 8.0]` step `0.1`, Rm_F in
`[5.0, 9.0]` step `0.1`, Pachy_Min in `[200, 600]` step `5`. -/
def streamlitInput (k1 k2 k3 : Nat) : List ℚ :=
  [stSlider 4.0 8.0 6.5 0.1 k1, stSlider 5.0 9.0 7.8 0.1 k2, stSlider 200 600 520 5 k3]

/-- What one predict-button interaction of the app produces: the query row
sent to the model, the predicted stage and the class probabilities. -/
structure PredictionResult where
  query : List ℚ
  stage : ℚ
  probs : List ℚ
deriving DecidableEq

/-- Model of one predict-button press of `streamlit_app.main()` with the
three sliders at positions `k1, k2, k3`: load the model (error case: file
not found), build `input_data` from the sliders, and call `predict` and
`predict_proba` on it inside the app's `try` block (error case: the
prediction call raised). -/
def streamlitMain (st : Store) (k1 k2 k3 : Nat) : Except AppError PredictionResult :=
  match appLoadModel st with
  | .error e => .error e
  | .ok m =>
    let q := streamlitInput k1 k2 k3
    match m.predict q with
    | .error _ => .error .predictionRaised
    | .ok s =>
      match m.predictProba q with
      | .error _ => .error .predictionRaised
      | .ok pr => .ok { query := q, stage := s, probs := pr }

/-- Behaviour of one of the five step modules as `run_pipeline.run_step`
can observe it: whether importing it raises, whether it defines `main`, and
whether calling `main()` raises. -/
structure PyModule where
  importOk : Bool
  hasMain : Bool
  mainRaises : Bool
deriving DecidableEq

/-- Model of `run_pipeline.run_step`, returning (success, main-was-invoked).
Inside the `try`: import the module (an import error is caught and the step
fails); if the module has a `main` attribute call it (an exception is caught
and the step fails); then print the step as completed and return `True`. -/
def run_step (m : PyModule) : Bool × Bool :=
  if m.importOk = false then (false, false)
  else if m.hasMain then (if m.mainRaises then false else true, true)
  else (true, false)

/-- The `steps` list of `run_pipeline.main()`: step names and module paths,
in order. -/
def pipeline_steps : List (String × String) :=
  [("1. Data Generation", "src.data_generator"),
   ("2. Data Preprocessing", "src.preprocessing"),
   ("3. Feature Selection", "src.feature_selection"),
   ("4. Model Training", "src.train"),
   ("5. Model Evaluation", "src.evaluate")]

/-- The step loop of `run_pipeline.main()` over an environment mapping module
paths to module behaviours: run each step in order, append its result, and
on the first failure stop and `sys.exit(1)`.  Returns the list of recorded
step results and whether the process exited with status 1. -/
def runPipelineSteps (env : String → PyModule) : List (String × String) → List Bool × Bool
  | [] => ([], false)
  | (_, mp) :: rest =>
    let s := (run_step (env mp)).1
    if s then
      let r := runPipelineSteps env rest
      (s :: r.1, r.2)
    else ([s], true)

/-- Model of `run_pipeline.main()`: the step loop over the five pipeline
steps. -/
def runPipelineMain (env : String → PyModule) : List Bool × Bool :=
  runPipelineSteps env pipeline_steps

/-- The feature columns Rm_B, Rm_F, Pachy_Min are present in a DataFrame. -/
def hasFeatureCols (df : DataFrame) : Prop :=
  (df.getCol "Rm_B").isSome ∧ (df.getCol "Rm_F").isSome ∧ (df.getCol "Pachy_Min").isSome

/-- Every Severity label of a DataFrame is one of the integers 0–4. -/
def severityValid (df : DataFrame) : Prop :=
  ∃ col, df.getCol "Severity" = some col ∧ ∀ v ∈ col, v ∈ ([0, 1, 2, 3, 4] : List ℚ)

/-- The two spec invariants on a pipeline dataset: the label is in `{0..4}`
and the feature columns are present. -/
def datasetInvariant (df : DataFrame) : Prop :=
  hasFeatureCols df ∧ severityValid df

/-- A concrete RNG state used to instantiate the generator theorems. -/
def wRNG : RNG := { stream := fun _ => 0, pos := 0 }

/-- A concrete seeded-stream family used to instantiate the generator
theorems. -/
def wStreamOf : Int → Nat → ℚ := fun _ _ => 0

/-- A concrete shuffle family (the identity permutation of each length). -/
def idPermOf : Int → Nat → List Nat := fun _ len => List.range len

/-- A concrete sample row. -/
def sampleRow : Row := { severity := 0, rm_b := 6.5, rm_f := 7.8, pachy_min := 520 }

/-- A concrete one-row dataset in the generator's column layout. -/
def sampleDF : DataFrame := datasetToDF [sampleRow]

/-- A concrete model that predicts stage 0 with full confidence and never
raises. -/
def zeroModel : Model :=
  { predict := fun _ => .ok 0, predictProba := fun _ => .ok [1, 0, 0, 0, 0] }

/-- A concrete training function returning `zeroModel`. -/
def wFit : List (List ℚ) → List ℚ → Model := fun _ _ => zeroModel

/-- A concrete store holding only the raw dataset. -/
def rawOnlyStore : Store :=
  { files := fun p => if p = rawPath then some sampleDF else none, models := fun _ => none }

/-- A concrete store holding only the preprocessed dataset. -/
def processedOnlyStore : Store :=
  { files := fun p => if p = processedPath then some sampleDF else none,
    models := fun _ => none }

/-- A concrete store holding the raw dataset and a persisted model. -/
def evalReadyStore : Store :=
  { files := fun p => if p = rawPath then some sampleDF else none,
    models := fun p => if p = modelPath then some zeroModel else none }

/-- A concrete store holding only a persisted model. -/
def modelOnlyStore : Store :=
  { files := fun _ => none, models := fun p => if p = modelPath then some zeroModel else none }

/-- A completely empty store. -/
def emptyStore : Store := { files := fun _ => none, models := fun _ => none }

/-- A module environment where only `src.feature_selection` fails to
import. -/
def wEnv : String → PyModule := fun mp =>
  if mp = "src.feature_selection" then { importOk := false, hasMain := true, mainRaises := false }
  else { importOk := true, hasMain := true, mainRaises := false }

/-- The prediction the app produces from `modelOnlyStore` with all three
sliders at their leftmost positions. -/
def wPrediction : PredictionResult :=
  { query := streamlitInput 0 0 0, stage := 0, probs := [1, 0, 0, 0, 0] }

/-- C2: the synthetic-data generation procedure is deterministic: two runs
that each construct a fresh `PentacamDataGenerator(n_per_class, random_state)`
and call `generate_dataset` produce identical datasets (same rows in the
same order), whatever global RNG state each run starts from — the
constructor's `np.random.seed(random_state)` resets that state. -/
theorem c2_generation_deterministic (streamOf : Int → Nat → ℚ)
    (permOf : Int → Nat → List Nat) (rs : Int) (n : Nat) (g g' : RNG) :
    (freshGenerateDataset streamOf permOf rs n g).1
      = (freshGenerateDataset streamOf permOf rs n g').1 :=
  rfl

/-- C10: a pipeline step whose module imports successfully but defines no
`main` function is reported as completed: `run_step` returns `True` without
ever invoking `main`. -/
theorem c10_run_step_no_main (m : PyModule)
    (h1 : m.importOk = true) (h2 : m.hasMain = false) :
    run_step m = (true, false) := by
  simp [run_step, h1, h2]

/-- Witness for C10 at the concrete module that imports and has no `main`. -/
theorem c10_run_step_no_main_witness :
    run_step { importOk := true, hasMain := false, mainRaises := false } = (true, false) :=
  c10_run_step_no_main { importOk := true, hasMain := false, mainRaises := false } rfl rfl

theorem runPipelineSteps_halt (env : String → PyModule) :
    ∀ (steps : List (String × String)) (k : Nat),
      (runPipelineSteps env steps).1[k]? = some false →
      (runPipelineSteps env steps).1.length = k + 1 ∧ (runPipelineSteps env steps).2 = true
  | [], k => by simp [runPipelineSteps]
  | (nm, mp) :: rest, k => by
    simp only [runPipelineSteps]
    cases hs : (run_step (env mp)).1 with
    | true =>
      simp only [hs, if_true]
      cases k with
      | zero => intro h; simp at h
      | succ k' =>
        intro h
        simp only [List.getElem?_cons_succ] at h
        have := runPipelineSteps_halt env rest k' h
        simp [this.1, this.2]
    | false =>
      simp only [hs, Bool.false_eq_true, if_false]
      cases k with
      | zero => intro _; simp
      | succ k' => intro h; simp at h

theorem runPipelineSteps_order (env : String → PyModule) :
    ∀ (steps : List (String × String)) (j : Nat),
      j < (runPipelineSteps env steps).1.length →
      (runPipelineSteps env steps).1[j]?
        = (steps[j]?).map (fun s => (run_step (env s.2)).1)
  | [], j => by simp [runPipelineSteps]
  | (nm, mp) :: rest, j => by
    simp only [runPipelineSteps]
    cases hs : (run_step (env mp)).1 with
    | true =>
      simp only [hs, if_true]
      cases j with
      | zero => intro _; simp [hs]
      | succ j' =>
        intro h
        simp only [List.length_cons, Nat.succ_lt_succ_iff] at h
        simp only [List.getElem?_cons_succ]
        exact runPipelineSteps_order env rest j' h
    | false =>
      simp only [hs, Bool.false_eq_true, if_false]
      cases j with
      | zero => intro _; simp [hs]
      | succ j' => intro h; simp at h

theorem runPipelineSteps_earlier_true (env : String → PyModule) :
    ∀ (steps : List (String × String)) (k j : Nat),
      k < (runPipelineSteps env steps).1.length → j < k →
      (runPipelineSteps env steps).1[j]? = some true
  | [], k, j => by simp [runPipelineSteps]
  | (nm, mp) :: rest, k, j => by
    simp only [runPipelineSteps]
    cases hs : (run_step (env mp)).1 with
    | true =>
      simp only [hs, if_true]
      cases j with
      | zero => intro _ _; simp
      | succ j' =>
        cases k with
        | zero => intro _ h; omega
        | succ k' =>
          intro hk hj
          simp only [List.length_cons, Nat.succ_lt_succ_iff] at hk
          simp only [List.getElem?_cons_succ]
          exact runPipelineSteps_earlier_true env rest k' j' hk (by omega)
    | false =>
      simp only [hs, Bool.false_eq_true, if_false]
      intro hk hj
      simp only [List.length_singleton] at hk
      omega

/-- C3: the orchestrator runs the five steps in their fixed list order
(each recorded result is `run_step` of the corresponding module), stops on
the first failure (a recorded failure at position `k` is the last record and
the process exits with status 1), and a step runs only if all earlier steps
succeeded. -/
theorem c3_orchestrator_stops_on_failure (env : String → PyModule) (k : Nat) :
    ((runPipelineMain env).1[k]? = some false →
      (runPipelineMain env).1.length = k + 1 ∧ (runPipelineMain env).2 = true) ∧
    (∀ j, j < (runPipelineMain env).1.length →
      (runPipelineMain env).1[j]? = (pipeline_steps[j]?).map (fun s => (run_step (env s.2)).1)) ∧
    (k < (runPipelineMain env).1.length →
      ∀ j, j < k → (runPipelineMain env).1[j]? = some true) :=
  ⟨fun h => runPipelineSteps_halt env pipeline_steps k h,
   fun j hj => runPipelineSteps_order env pipeline_steps j hj,
   fun hk j hj => runPipelineSteps_earlier_true env pipeline_steps k j hk hj⟩

/-- Witness for C3 in the environment where the third step (feature
selection) fails on import: the recorded results stop there and the process
exits with status 1. -/
theorem c3_orchestrator_stops_on_failure_witness :
    (runPipelineMain wEnv).1.length = 2 + 1 ∧ (runPipelineMain wEnv).2 = true :=
  (c3_orchestrator_stops_on_failure wEnv 2).1 (by decide)

theorem store_setFile_get (st : Store) (p q : String) (df : DataFrame) :
    (st.setFile p df).files q = if q = p then some df else st.files q := rfl

theorem store_setFile_models (st : Store) (p : String) (df : DataFrame) :
    (st.setFile p df).models = st.models := rfl

theorem store_setModel_files (st : Store) (p : String) (m : Model) :
    (st.setModel p m).files = st.files := rfl

theorem store_setModel_get (st : Store) (p q : String) (m : Model) :
    (st.setModel p m).models q = if q = p then some m else st.models q := rfl

/-- C4: preprocessing is the identity: whenever `preprocessing.main` runs to
completion, the DataFrame it writes to the processed path is exactly the
DataFrame it read from the raw path, and no other file changes. -/
theorem c4_preprocessing_identity (st st' : Store)
    (h : preprocessingMain st = .ok st') :
    ∃ df, st.files rawPath = some df ∧ st'.files processedPath = some df ∧
      ∀ p, p ≠ processedPath → st'.files p = st.files p := by
  unfold preprocessingMain at h
  split at h
  · exact Except.noConfusion h
  next df hraw =>
    split at h
    next =>
      cases h
      refine ⟨df, hraw, ?_, ?_⟩
      · simp [store_setFile_get]
      · intro p hp
        simp [store_setFile_get, hp]
    next => exact Except.noConfusion h

/-- Witness for C4 at the concrete one-row raw store. -/
theorem c4_preprocessing_identity_witness :
    ∃ df, rawOnlyStore.files rawPath = some df ∧
      (rawOnlyStore.setFile processedPath sampleDF).files processedPath = some df ∧
      ∀ p, p ≠ processedPath →
        (rawOnlyStore.setFile processedPath sampleDF).files p = rawOnlyStore.files p :=
  c4_preprocessing_identity rawOnlyStore (rawOnlyStore.setFile processedPath sampleDF) rfl

/-- Counterexample to C5 as stated: on a processed dataset with the four
generated columns, the DataFrame that `feature_selection.main` writes out
keeps all four columns (Severity included) — it does not consist of exactly
the three feature columns `selected_features`. -/
theorem c5_counterexample :
    (featureSelectionMain processedOnlyStore).map
        (fun st => (st.files selectedPath).map DataFrame.columns)
      = .ok (some ["Severity", "Rm_B", "Rm_F", "Pachy_Min"]) ∧
    (["Severity", "Rm_B", "Rm_F", "Pachy_Min"] : List String) ≠ selected_features :=
  ⟨rfl, by decide⟩

/-- C5 amended: the feature selector is an identity pass-through — the
DataFrame it writes to the selected path equals the DataFrame it read from
the processed path, all columns and values unchanged (Severity included);
the fixed 3-column subset `selected_features = [Rm_B, Rm_F, Pachy_Min]` is
only printed, never materialized.  No other file changes. -/
theorem c5_feature_selection_pass_through (st st' : Store)
    (h : featureSelectionMain st = .ok st') :
    ∃ df, st.files processedPath = some df ∧ st'.files selectedPath = some df ∧
      ∀ p, p ≠ selectedPath → st'.files p = st.files p := by
  unfold featureSelectionMain at h
  split at h
  · exact Except.noConfusion h
  next df hproc =>
    cases h
    refine ⟨df, hproc, ?_, ?_⟩
    · simp [store_setFile_get]
    · intro p hp
      simp [store_setFile_get, hp]

/-- Witness for the amended C5 at the concrete one-row processed store. -/
theorem c5_feature_selection_pass_through_witness :
    ∃ df, processedOnlyStore.files processedPath = some df ∧
      (processedOnlyStore.setFile selectedPath sampleDF).files selectedPath = some df ∧
      ∀ p, p ≠ selectedPath →
        (processedOnlyStore.setFile selectedPath sampleDF).files p
          = processedOnlyStore.files p :=
  c5_feature_selection_pass_through processedOnlyStore
    (processedOnlyStore.setFile selectedPath sampleDF) rfl

theorem zipRows_map (l : List Nat) (stage : Nat) (fb ff fp : Nat → ℚ) :
    zipRows (l.map fun _ => stage) (l.map fb) (l.map ff) (l.map fp)
      = l.map (fun i => ⟨stage, fb i, ff i, fp i⟩) := by
  induction l with
  | nil => rfl
  | cons a t ih => simp only [List.map_cons, zipRows, ih]

theorem npFull_eq_map (n stage : Nat) :
    npFull n stage = (List.range n).map (fun _ => stage) := by
  simp [npFull, List.map_const', List.length_range]

theorem generate_stage_data_fst (g : RNG) (n stage : Nat) :
    (generate_stage_data g n stage).1
      = (List.range n).map (fun i =>
          { severity := stage,
            rm_b := rm_b_mean stage + rm_b_std * g.stream (g.pos + i),
            rm_f := rm_f_mean stage + rm_f_std * g.stream (g.pos + n + i),
            pachy_min := pachy_min_mean stage + pachy_min_std * g.stream (g.pos + n + n + i) }) := by
  simp only [generate_stage_data, npNormal, npFull_eq_map]
  exact zipRows_map (List.range n) stage _ _ _

theorem generate_stage_data_snd (g : RNG) (n stage : Nat) :
    (generate_stage_data g n stage).2 = { stream := g.stream, pos := g.pos + n + n + n } :=
  rfl

theorem generateStages_snd_stream (n : Nat) :
    ∀ (l : List Nat) (g : RNG), (generateStages n l g).2.stream = g.stream
  | [], g => rfl
  | s :: rest, g => by
    simp only [generateStages]
    rw [generateStages_snd_stream n rest]
    rfl

theorem generateStages_length (n : Nat) :
    ∀ (l : List Nat) (g : RNG), (generateStages n l g).1.length = n * l.length
  | [], g => by simp [generateStages]
  | s :: rest, g => by
    simp only [generateStages, List.length_append, List.length_cons]
    rw [generateStages_length n rest]
    have hb : (generate_stage_data g n s).1.length = n := by
      rw [generate_stage_data_fst]; simp
    rw [hb, Nat.mul_succ]; ring

theorem generateStages_mem (n : Nat) :
    ∀ (l : List Nat) (g : RNG) (r : Row), r ∈ (generateStages n l g).1 →
      r.severity ∈ l ∧
      (∃ i, r.rm_b = rm_b_mean r.severity + rm_b_std * g.stream i) ∧
      (∃ i, r.rm_f = rm_f_mean r.severity + rm_f_std * g.stream i) ∧
      (∃ i, r.pachy_min = pachy_min_mean r.severity + pachy_min_std * g.stream i)
  | [], g, r => by simp [generateStages]
  | s :: rest, g, r => by
    intro hr
    simp only [generateStages, List.mem_append] at hr
    rcases hr with hr | hr
    · rw [generate_stage_data_fst] at hr
      obtain ⟨i, _, rfl⟩ := List.mem_map.mp hr
      refine ⟨List.mem_cons_self s rest, ⟨g.pos + i, rfl⟩, ⟨g.pos + n + i, rfl⟩,
        ⟨g.pos + n + n + i, rfl⟩⟩
    · have := generateStages_mem n rest (generate_stage_data g n s).2 r hr
      rw [generate_stage_data_snd] at this
      exact ⟨List.mem_cons_of_mem s this.1, this.2.1, this.2.2.1, this.2.2.2⟩

theorem generateStages_filter_length (n s : Nat) :
    ∀ (l : List Nat) (g : RNG),
      ((generateStages n l g).1.filter (fun r => r.severity == s)).length
        = n * (l.filter (fun t => t == s)).length
  | [], g => by simp [generateStages]
  | t :: rest, g => by
    simp only [generateStages, List.filter_append, List.length_append]
    rw [generateStages_filter_length n s rest]
    have hblock : ((generate_stage_data g n t).1.filter (fun r => r.severity == s)).length
        = if t == s then n else 0 := by
      rw [generate_stage_data_fst]
      by_cases h : t = s
      · subst h
        rw [List.filter_eq_self.mpr]
        · simp
        · intro a ha
          obtain ⟨i, _, rfl⟩ := List.mem_map.mp ha
          simp
      · rw [List.filter_eq_nil_iff.mpr]
        · simp [h]
        · intro a ha
          obtain ⟨i, _, rfl⟩ := List.mem_map.mp ha
          simp [h]
    rw [hblock, List.filter_cons]
    by_cases h : t = s
    · subst h
      simp only [beq_self_eq_true, if_true, List.length_cons]
      ring
    · simp [h]

theorem filterMap_getElem_range_take (l : List α) :
    ∀ n : Nat, (List.range n).filterMap (fun i => l[i]?) = l.take n := by
  intro n
  induction n with
  | zero => simp
  | succ m ih =>
    rw [List.range_succ, List.filterMap_append, ih, List.take_succ]
    cases h : l[m]? <;> simp [h, List.filterMap_cons]

theorem filterMap_getElem_range (l : List α) :
    (List.range l.length).filterMap (fun i => l[i]?) = l := by
  rw [filterMap_getElem_range_take, List.take_length]

theorem applyPerm_perm (perm : List Nat) (l : List α)
    (h : perm.Perm (List.range l.length)) : (applyPerm perm l).Perm l := by
  have := List.Perm.filterMap (fun i => l[i]?) h
  rwa [filterMap_getElem_range] at this

theorem mem_applyPerm (perm : List Nat) (l : List α) (r : α)
    (h : r ∈ applyPerm perm l) : r ∈ l := by
  obtain ⟨i, _, hi⟩ := List.mem_filterMap.mp h
  obtain ⟨hlt, heq⟩ := List.getElem?_eq_some.mp hi
  exact heq ▸ List.getElem_mem hlt

theorem datasetToDF_getCol_severity (rows : List Row) :
    (datasetToDF rows).getCol "Severity" = some (rows.map fun r => (r.severity : ℚ)) := by
  simp only [datasetToDF, DataFrame.getCol]
  rw [show colIndex "Severity" ["Severity", "Rm_B", "Rm_F", "Pachy_Min"] = some 0 from rfl]
  rw [Option.map_some', List.map_map]
  rfl

theorem datasetToDF_getCol_rmB (rows : List Row) :
    (datasetToDF rows).getCol "Rm_B" = some (rows.map fun r => r.rm_b) := by
  simp only [datasetToDF, DataFrame.getCol]
  rw [show colIndex "Rm_B" ["Severity", "Rm_B", "Rm_F", "Pachy_Min"] = some 1 from rfl]
  rw [Option.map_some', List.map_map]
  rfl

theorem datasetToDF_getCol_rmF (rows : List Row) :
    (datasetToDF rows).getCol "Rm_F" = some (rows.map fun r => r.rm_f) := by
  simp only [datasetToDF, DataFrame.getCol]
  rw [show colIndex "Rm_F" ["Severity", "Rm_B", "Rm_F", "Pachy_Min"] = some 2 from rfl]
  rw [Option.map_some', List.map_map]
  rfl

theorem datasetToDF_getCol_pachy (rows : List Row) :
    (datasetToDF rows).getCol "Pachy_Min" = some (rows.map fun r => r.pachy_min) := by
  simp only [datasetToDF, DataFrame.getCol]
  rw [show colIndex "Pachy_Min" ["Severity", "Rm_B", "Rm_F", "Pachy_Min"] = some 3 from rfl]
  rw [Option.map_some', List.map_map]
  rfl

theorem severity_cast_mem (k : Nat) (h : k ∈ severity_stages) :
    ((k : ℚ)) ∈ ([0, 1, 2, 3, 4] : List ℚ) := by
  simp only [severity_stages, List.mem_cons, List.not_mem_nil, or_false] at h
  rcases h with h | h | h | h | h <;> subst h <;> norm_num

theorem generated_severity_mem (permOf : Int → Nat → List Nat) (rs : Int) (n : Nat)
    (g : RNG) (r : Row) (hr : r ∈ (generate_dataset permOf rs n g).1) :
    r.severity ∈ severity_stages := by
  have hr' := mem_applyPerm _ _ _ hr
  exact (generateStages_mem n severity_stages g r hr').1

theorem preprocessingMain_ok (st st' : Store) (h : preprocessingMain st = .ok st') :
    ∃ df, st.files rawPath = some df ∧ st' = st.setFile processedPath df := by
  unfold preprocessingMain at h
  split at h
  · exact Except.noConfusion h
  next df hraw =>
    split at h
    next => cases h; exact ⟨df, hraw, rfl⟩
    next => exact Except.noConfusion h

theorem featureSelectionMain_ok (st st' : Store) (h : featureSelectionMain st = .ok st') :
    ∃ df, st.files processedPath = some df ∧ st' = st.setFile selectedPath df := by
  unfold featureSelectionMain at h
  split at h
  · exact Except.noConfusion h
  next df hproc =>
    cases h
    exact ⟨df, hproc, rfl⟩

/-- C6: every dataset a pipeline stage produces satisfies the two invariants
— the Severity labels are integers in `{0..4}` and the feature columns
Rm_B, Rm_F, Pachy_Min are present: the generator's output satisfies them,
and preprocessing and feature selection (identity passes) preserve them. -/
theorem c6_dataset_invariants (permOf : Int → Nat → List Nat) (rs : Int) (n : Nat) (g : RNG) :
    datasetInvariant (datasetToDF (generate_dataset permOf rs n g).1) ∧
    (∀ st st' out, preprocessingMain st = .ok st' →
      st'.files processedPath = some out →
      (∀ df, st.files rawPath = some df → datasetInvariant df) →
      datasetInvariant out) ∧
    (∀ st st' out, featureSelectionMain st = .ok st' →
      st'.files selectedPath = some out →
      (∀ df, st.files processedPath = some df → datasetInvariant df) →
      datasetInvariant out) := by
  refine ⟨⟨?_, ?_⟩, ?_, ?_⟩
  · refine ⟨?_, ?_, ?_⟩ <;> simp [datasetToDF_getCol_rmB, datasetToDF_getCol_rmF,
      datasetToDF_getCol_pachy]
  · refine ⟨_, datasetToDF_getCol_severity _, ?_⟩
    intro v hv
    obtain ⟨r, hr, rfl⟩ := List.mem_map.mp hv
    exact severity_cast_mem r.severity (generated_severity_mem permOf rs n g r hr)
  · intro st st' out h hout hinv
    obtain ⟨df, hraw, rfl⟩ := preprocessingMain_ok st st' h
    rw [store_setFile_get, if_pos rfl] at hout
    cases hout
    exact hinv _ hraw
  · intro st st' out h hout hinv
    obtain ⟨df, hproc, rfl⟩ := featureSelectionMain_ok st st' h
    rw [store_setFile_get, if_pos rfl] at hout
    cases hout
    exact hinv _ hproc

theorem sampleDF_invariant : datasetInvariant sampleDF := by
  refine ⟨⟨?_, ?_, ?_⟩, ⟨[0], rfl, ?_⟩⟩ <;> first
    | rfl
    | (intro v hv; simp only [List.mem_singleton] at hv; subst hv; norm_num)

/-- Witness for C6: the invariants hold on a concrete generated dataset and
are preserved by concrete preprocessing and feature-selection runs. -/
theorem c6_dataset_invariants_witness :
    datasetInvariant (datasetToDF (generate_dataset idPermOf 0 1 wRNG).1) ∧
    datasetInvariant sampleDF :=
  ⟨(c6_dataset_invariants idPermOf 0 1 wRNG).1,
   (c6_dataset_invariants idPermOf 0 1 wRNG).2.1 rawOnlyStore
     (rawOnlyStore.setFile processedPath sampleDF) sampleDF rfl rfl
     (fun _ h => (Option.some.inj h) ▸ sampleDF_invariant)⟩

/-- C1: for every per-class count `n`, whenever pandas' seeded shuffle is a
permutation of the row indices, the generator's complete dataset has `5 * n`
rows, exactly `n` of them labelled with each stage `s < 5`, and every row's
three features are Gaussian draws `mean + std * z` from the seeded stream
with the stage-dependent means `Rm_B = 6.5 - 0.4 s`, `Rm_F = 7.8 - 0.35 s`,
`Pachy_Min = 520 - 30 s`. -/
theorem c1_generator_class_counts_and_means (g : RNG) (permOf : Int → Nat → List Nat)
    (rs : Int) (n s : Nat)
    (hperm : (permOf rs (5 * n)).Perm (List.range (5 * n))) (hs : s < 5) :
    (generate_dataset permOf rs n g).1.length = 5 * n ∧
    ((generate_dataset permOf rs n g).1.filter (fun r => r.severity == s)).length = n ∧
    ∀ r ∈ (generate_dataset permOf rs n g).1,
      r.severity < 5 ∧
      (∃ i, r.rm_b = (6.5 - r.severity * 0.4) + 0.25 * g.stream i) ∧
      (∃ i, r.rm_f = (7.8 - r.severity * 0.35) + 0.3 * g.stream i) ∧
      (∃ i, r.pachy_min = (520 - r.severity * 30) + 20 * g.stream i) := by
  have hlen : (generateStages n severity_stages g).1.length = 5 * n := by
    rw [generateStages_length]
    simp [severity_stages, Nat.mul_comm]
  have hp : ((generate_dataset permOf rs n g).1).Perm (generateStages n severity_stages g).1 := by
    simp only [generate_dataset, pandasSampleFrac1]
    exact applyPerm_perm _ _ (by rw [hlen]; exact hperm)
  refine ⟨?_, ?_, ?_⟩
  · rw [hp.length_eq, hlen]
  · rw [(hp.filter _).length_eq, generateStages_filter_length]
    have hone : (severity_stages.filter (fun t => t == s)).length = 1 := by
      interval_cases s <;> decide
    rw [hone, Nat.mul_one]
  · intro r hr
    have hr' : r ∈ (generateStages n severity_stages g).1 := hp.mem_iff.mp hr
    have h3 := generateStages_mem n severity_stages g r hr'
    refine ⟨?_, h3.2.1, h3.2.2.1, h3.2.2.2⟩
    have := h3.1
    simp only [severity_stages, List.mem_cons, List.not_mem_nil, or_false] at this
    rcases this with h | h | h | h | h <;> omega

/-- Witness for C1 at `n = 1`, the identity shuffle, the zero stream and
stage 2. -/
theorem c1_generator_class_counts_and_means_witness :
    (generate_dataset idPermOf 0 1 wRNG).1.length = 5 * 1 ∧
    ((generate_dataset idPermOf 0 1 wRNG).1.filter (fun r => r.severity == 2)).length = 1 ∧
    ∀ r ∈ (generate_dataset idPermOf 0 1 wRNG).1,
      r.severity < 5 ∧
      (∃ i, r.rm_b = (6.5 - r.severity * 0.4) + 0.25 * wRNG.stream i) ∧
      (∃ i, r.rm_f = (7.8 - r.severity * 0.35) + 0.3 * wRNG.stream i) ∧
      (∃ i, r.pachy_min = (520 - r.severity * 30) + 20 * wRNG.stream i) :=
  c1_generator_class_counts_and_means wRNG idPermOf 0 1 2 (List.Perm.refl _) (by omega)

theorem getCol_length (df : DataFrame) (nm : String) (c : List ℚ)
    (h : df.getCol nm = some c) : c.length = df.rows.length := by
  unfold DataFrame.getCol at h
  cases hidx : colIndex nm df.columns with
  | none => rw [hidx] at h; exact Option.noConfusion h
  | some i =>
    rw [hidx, Option.map_some'] at h
    cases h
    simp

theorem zipFeatureRows_length :
    ∀ (b f p : List ℚ), f.length = b.length → p.length = b.length →
      (zipFeatureRows b f p).length = b.length
  | [], f, p => by intros; simp [zipFeatureRows]
  | x :: bs, [], p => by intro h _; simp at h
  | x :: bs, y :: fs, [] => by intro _ h; simp at h
  | x :: bs, y :: fs, z :: ps => by
    intro hf hp
    have := zipFeatureRows_length bs fs ps (by simpa using hf) (by simpa using hp)
    simp [zipFeatureRows, this]

theorem predictBatch_length (m : Model) :
    ∀ (X : List (List ℚ)) (ys : List ℚ), predictBatch m X = .ok ys → ys.length = X.length
  | [], ys => by intro h; cases h; rfl
  | x :: xs, ys => by
    intro h
    simp only [predictBatch] at h
    cases hp : m.predict x with
    | error e => rw [hp] at h; exact Except.noConfusion h
    | ok v =>
      rw [hp] at h
      cases hb : predictBatch m xs with
      | error e => rw [hb] at h; exact Except.noConfusion h
      | ok vs =>
        rw [hb] at h
        cases h
        simp [predictBatch_length m xs vs hb]

theorem runTestCases_length (m : Model) :
    ∀ (cs : List (List ℚ)) (vs : List ℚ), runTestCases m cs = .ok vs → vs.length = cs.length
  | [], vs => by intro h; cases h; rfl
  | c :: cs, vs => by
    intro h
    simp only [runTestCases] at h
    cases hp : m.predict c with
    | error e => rw [hp] at h; exact Except.noConfusion h
    | ok v =>
      rw [hp] at h
      cases hq : m.predictProba c with
      | error e => rw [hq] at h; exact Except.noConfusion h
      | ok pr =>
        rw [hq] at h
        cases hb : runTestCases m cs with
        | error e => rw [hb] at h; exact Except.noConfusion h
        | ok vs' =>
          rw [hb] at h
          cases h
          simp [runTestCases_length m cs vs' hb]

/-- C7: whenever the raw dataset and the persisted model are in place and the
prediction calls return, the evaluator reloads that model, scores it against
the full dataset — one prediction per raw row, not a held-out subset — and
emits the confusion matrix, the classification report and the predictions
for the five fixed clinical test cases. -/
theorem c7_evaluator_full_dataset (st : Store) (df : DataFrame) (m : Model)
    (b f p y yPred tps : List ℚ)
    (hdf : st.files rawPath = some df)
    (hb : df.getCol "Rm_B" = some b) (hf : df.getCol "Rm_F" = some f)
    (hp : df.getCol "Pachy_Min" = some p) (hy : df.getCol "Severity" = some y)
    (hm : st.models modelPath = some m)
    (hpred : predictBatch m (zipFeatureRows b f p) = .ok yPred)
    (htc : runTestCases m clinical_test_cases = .ok tps) :
    evaluateMain st = .ok
      (st.setFile metricsPath
        { columns := ["accuracy", "precision", "recall", "f1", "f2"],
          rows := [evalMetrics y yPred] },
       { y := y, yPred := yPred, metrics := evalMetrics y yPred,
         confusion := confusionMatrix y yPred,
         report := classificationReport y yPred, testPreds := tps }) ∧
    yPred.length = df.rows.length ∧
    tps.length = clinical_test_cases.length ∧ clinical_test_cases.length = 5 := by
  refine ⟨?_, ?_, runTestCases_length m _ _ htc, rfl⟩
  · simp only [evaluateMain, hdf, hb, hf, hp, hy, hm, ModelEvaluator.evaluate, hpred, htc]
  · rw [predictBatch_length m _ _ hpred,
      zipFeatureRows_length b f p
        (by rw [getCol_length df _ _ hf, getCol_length df _ _ hb])
        (by rw [getCol_length df _ _ hp, getCol_length df _ _ hb]),
      getCol_length df _ _ hb]

/-- Witness for C7 at the concrete one-row store with the always-stage-0
model. -/
theorem c7_evaluator_full_dataset_witness :
    evaluateMain evalReadyStore = .ok
      (evalReadyStore.setFile metricsPath
        { columns := ["accuracy", "precision", "recall", "f1", "f2"],
          rows := [evalMetrics [0] [0]] },
       { y := [0], yPred := [0], metrics := evalMetrics [0] [0],
         confusion := confusionMatrix [0] [0],
         report := classificationReport [0] [0], testPreds := [0, 0, 0, 0, 0] }) ∧
    ([0] : List ℚ).length = sampleDF.rows.length ∧
    ([0, 0, 0, 0, 0] : List ℚ).length = clinical_test_cases.length ∧
    clinical_test_cases.length = 5 :=
  c7_evaluator_full_dataset evalReadyStore sampleDF zeroModel
    [6.5] [7.8] [520] [0] [0] [0, 0, 0, 0, 0] rfl rfl rfl rfl rfl rfl rfl rfl

theorem preprocessingMain_generated (st : Store) (rows : List Row) :
    preprocessingMain (st.setFile rawPath (datasetToDF rows))
      = .ok ((st.setFile rawPath (datasetToDF rows)).setFile processedPath (datasetToDF rows)) := by
  have hget : (st.setFile rawPath (datasetToDF rows)).files rawPath = some (datasetToDF rows) := by
    simp [store_setFile_get]
  simp only [preprocessingMain, hget, datasetToDF_getCol_rmB, datasetToDF_getCol_rmF,
    datasetToDF_getCol_pachy]

theorem featureSelectionMain_processed (st : Store) (d : DataFrame) :
    featureSelectionMain (st.setFile processedPath d)
      = .ok ((st.setFile processedPath d).setFile selectedPath d) := by
  have hget : (st.setFile processedPath d).files processedPath = some d := by
    simp [store_setFile_get]
  simp only [featureSelectionMain, hget]

theorem trainMain_selected (fit : List (List ℚ) → List ℚ → Model) (st : Store)
    (rows : List Row) :
    trainMain fit (st.setFile selectedPath (datasetToDF rows)) = .error .predictionRaised ∨
    ∃ m, trainMain fit (st.setFile selectedPath (datasetToDF rows))
        = .ok ((st.setFile selectedPath (datasetToDF rows)).setModel modelPath m) := by
  have hget : (st.setFile selectedPath (datasetToDF rows)).files selectedPath
      = some (datasetToDF rows) := by
    simp [store_setFile_get]
  simp only [trainMain, hget, datasetToDF_getCol_rmB, datasetToDF_getCol_rmF,
    datasetToDF_getCol_pachy, datasetToDF_getCol_severity]
  split
  · exact .inl rfl
  · exact .inr ⟨_, rfl⟩

theorem evaluate_some_error (m : Model) (X : List (List ℚ)) (y : List ℚ) (e : AppError)
    (h : ModelEvaluator.evaluate (some m) X y = .error e) : e = .predictionRaised := by
  simp only [ModelEvaluator.evaluate] at h
  split at h
  · cases h; rfl
  · exact Except.noConfusion h

theorem evaluateMain_ready (st : Store) (rows : List Row) (m : Model)
    (hraw : st.files rawPath = some (datasetToDF rows))
    (hm : st.models modelPath = some m) (e : AppError)
    (h : evaluateMain st = .error e) : e = .predictionRaised := by
  simp only [evaluateMain, hraw, datasetToDF_getCol_rmB, datasetToDF_getCol_rmF,
    datasetToDF_getCol_pachy, datasetToDF_getCol_severity, hm] at h
  split at h
  next e' hev =>
    cases h
    exact evaluate_some_error m _ _ e hev
  next mv hev =>
    split at h
    · cases h; rfl
    · exact Except.noConfusion h

/-- C8: the error taxonomy is limited to the two spec cases: every error an
end-to-end pipeline run or a prediction-interface interaction can signal is
either `file not found` or `prediction call raised`; the other exception
sites of the code (missing DataFrame column, `evaluate`'s no-model guard)
are unreachable through these entry points. -/
theorem c8_error_taxonomy (streamOf : Int → Nat → ℚ) (permOf : Int → Nat → List Nat)
    (fit : List (List ℚ) → List ℚ → Model) (g : RNG) (st st2 : Store)
    (k1 k2 k3 : Nat) (e : AppError)
    (h : fullPipelineRun streamOf permOf fit g st = .error e ∨
         streamlitMain st2 k1 k2 k3 = .error e) :
    e = .fileNotFound ∨ e = .predictionRaised := by
  rcases h with h | h
  · simp only [fullPipelineRun, dataGeneratorMain, dataGeneratorRun,
      preprocessingMain_generated, featureSelectionMain_processed] at h
    rcases trainMain_selected fit
        ((st.setFile rawPath (datasetToDF (freshGenerateDataset streamOf permOf 42 130 g).1)).setFile
          processedPath (datasetToDF (freshGenerateDataset streamOf permOf 42 130 g).1))
        (freshGenerateDataset streamOf permOf 42 130 g).1 with htr | ⟨m, htr⟩
    · rw [htr] at h
      cases h
      exact .inr rfl
    · rw [htr] at h
      refine .inr (evaluateMain_ready _ (freshGenerateDataset streamOf permOf 42 130 g).1 m ?_ ?_ e h)
      · simp [store_setModel_files, store_setFile_get, rawPath, processedPath, selectedPath]
      · simp [store_setModel_get]
  · cases hm : st2.models modelPath with
    | none =>
      simp only [streamlitMain, appLoadModel, hm] at h
      cases h
      exact .inl rfl
    | some m =>
      simp only [streamlitMain, appLoadModel, hm] at h
      cases hp : m.predict (streamlitInput k1 k2 k3) with
      | error u => simp only [hp] at h; cases h; exact .inr rfl
      | ok v =>
        simp only [hp] at h
        cases hq : m.predictProba (streamlitInput k1 k2 k3) with
        | error u => simp only [hq] at h; cases h; exact .inr rfl
        | ok pr => simp only [hq] at h; exact Except.noConfusion h

/-- Witness for C8: on the empty store the prediction interface signals an
error, and it is one of the two spec cases. -/
theorem c8_error_taxonomy_witness :
    AppError.fileNotFound = AppError.fileNotFound ∨
    AppError.fileNotFound = AppError.predictionRaised :=
  c8_error_taxonomy wStreamOf idPermOf wFit wRNG emptyStore emptyStore 0 0 0
    .fileNotFound (.inr rfl)

theorem stSlider_mem (lo hi d step : ℚ) (k : Nat) (hlh : lo ≤ hi) (hstep : 0 ≤ step) :
    lo ≤ stSlider lo hi d step k ∧ stSlider lo hi d step k ≤ hi := by
  unfold stSlider
  refine ⟨le_min (le_add_of_nonneg_right ?_) hlh, min_le_right _ _⟩
  exact mul_nonneg (Nat.cast_nonneg k) hstep

theorem streamlitInput_getD_zero (k1 k2 k3 : Nat) :
    (streamlitInput k1 k2 k3).getD 0 0 = stSlider 4.0 8.0 6.5 0.1 k1 := rfl

theorem streamlitInput_getD_one (k1 k2 k3 : Nat) :
    (streamlitInput k1 k2 k3).getD 1 0 = stSlider 5.0 9.0 7.8 0.1 k2 := rfl

theorem streamlitInput_getD_two (k1 k2 k3 : Nat) :
    (streamlitInput k1 k2 k3).getD 2 0 = stSlider 200 600 520 5 k3 := rfl

/-- C9: every query point the prediction interface sends to the model comes
from the three sliders and is bounded by the slider ranges: Rm_B in
`[4.0, 8.0]`, Rm_F in `[5.0, 9.0]`, Pachy_Min in `[200, 600]`; a successful
interaction's query is exactly the slider row, so the model is never invoked
on values outside these ranges. -/
theorem c9_query_within_slider_bounds (st : Store) (k1 k2 k3 : Nat) (res : PredictionResult) :
    (4 ≤ (streamlitInput k1 k2 k3).getD 0 0 ∧ (streamlitInput k1 k2 k3).getD 0 0 ≤ 8) ∧
    (5 ≤ (streamlitInput k1 k2 k3).getD 1 0 ∧ (streamlitInput k1 k2 k3).getD 1 0 ≤ 9) ∧
    (200 ≤ (streamlitInput k1 k2 k3).getD 2 0 ∧ (streamlitInput k1 k2 k3).getD 2 0 ≤ 600) ∧
    (streamlitMain st k1 k2 k3 = .ok res → res.query = streamlitInput k1 k2 k3) := by
  refine ⟨⟨?_, ?_⟩, ⟨?_, ?_⟩, ⟨?_, ?_⟩, ?_⟩
  · rw [streamlitInput_getD_zero]
    exact le_trans (by norm_num) (stSlider_mem 4.0 8.0 6.5 0.1 k1 (by norm_num) (by norm_num)).1
  · rw [streamlitInput_getD_zero]
    exact le_trans (stSlider_mem 4.0 8.0 6.5 0.1 k1 (by norm_num) (by norm_num)).2 (by norm_num)
  · rw [streamlitInput_getD_one]
    exact le_trans (by norm_num) (stSlider_mem 5.0 9.0 7.8 0.1 k2 (by norm_num) (by norm_num)).1
  · rw [streamlitInput_getD_one]
    exact le_trans (stSlider_mem 5.0 9.0 7.8 0.1 k2 (by norm_num) (by norm_num)).2 (by norm_num)
  · rw [streamlitInput_getD_two]
    exact (stSlider_mem 200 600 520 5 k3 (by norm_num) (by norm_num)).1
  · rw [streamlitInput_getD_two]
    exact (stSlider_mem 200 600 520 5 k3 (by norm_num) (by norm_num)).2
  · intro h
    cases hm : st.models modelPath with
    | none =>
      simp only [streamlitMain, appLoadModel, hm] at h
      exact Except.noConfusion h
    | some m =>
      simp only [streamlitMain, appLoadModel, hm] at h
      cases hp : m.predict (streamlitInput k1 k2 k3) with
      | error u => simp only [hp] at h; exact Except.noConfusion h
      | ok v =>
        simp only [hp] at h
        cases hq : m.predictProba (streamlitInput k1 k2 k3) with
        | error u => simp only [hq] at h; exact Except.noConfusion h
        | ok pr => simp only [hq] at h; cases h; rfl

/-- Witness for C9 with the sliders at their leftmost positions on the
model-only store. -/
theorem c9_query_within_slider_bounds_witness :
    (4 ≤ (streamlitInput 0 0 0).getD 0 0 ∧ (streamlitInput 0 0 0).getD 0 0 ≤ 8) ∧
    (5 ≤ (streamlitInput 0 0 0).getD 1 0 ∧ (streamlitInput 0 0 0).getD 1 0 ≤ 9) ∧
    (200 ≤ (streamlitInput 0 0 0).getD 2 0 ∧ (streamlitInput 0 0 0).getD 2 0 ≤ 600) ∧
    wPrediction.query = streamlitInput 0 0 0 :=
  ⟨(c9_query_within_slider_bounds modelOnlyStore 0 0 0 wPrediction).1,
   (c9_query_within_slider_bounds modelOnlyStore 0 0 0 wPrediction).2.1,
   (c9_query_within_slider_bounds modelOnlyStore 0 0 0 wPrediction).2.2.1,
   (c9_query_within_slider_bounds modelOnlyStore 0 0 0 wPrediction).2.2.2 rfl⟩
